import Mathlib

/-!
Shallow embedding of `pkg/chunked/compression_linux.go` (the chunked
layer-manifest reader): `readEstargzChunkedManifest`,
`readZstdChunkedManifest`, `decodeAndValidateBlob`, and
`isZstdChunkedFrameMagic`, together with a model of the ranged blob
source they consume.

Modelling conventions:
* bytes are `Nat` (0..255 in well-formed data), byte strings are `List Nat`;
* the external zstd decoder, the external pgzip+tar pipeline and the
  cryptographic hash functions of `go-digest` are opaque external
  libraries; they are passed in as explicit function parameters
  (`ZstdModel`, `GzipTarModel`, `HashModel`), so every theorem below is
  quantified over (or instantiated at) a model of those libraries;
* the ranged blob source (`ImageSourceSeekable.GetBlobAt`) delivers, for
  a batched list of requested ranges, either a synchronous setup error
  or a list of outcomes, each outcome being an open stream (with an id
  and the bytes it will yield) or an error — one outcome per range;
* every run is instrumented with a `Trace` that records the fetch calls
  issued, the ids of the streams the source handed over, and the ids of
  the streams the reader closed, in order.
-/

namespace ChunkedStorage

abbrev Bytes := List Nat

/-- A requested byte range of the blob (`ImageSourceChunk` in the source). -/
structure ImageSourceChunk where
  offset : Nat
  length : Nat
deriving DecidableEq, Repr

/-- An open stream handed out by the blob source: an identity (used only by
the instrumentation to track closing) and the bytes reading it yields. -/
structure BlobStream where
  id : Nat
  data : Bytes
deriving DecidableEq, Repr

/-- One outcome of a ranged fetch: an open stream or an error
(`streamOrErr` in the repository). -/
inductive StreamOrErr where
  | stream (s : BlobStream)
  | err (msg : String)
deriving DecidableEq, Repr

/-- Reply of the blob source to one batched `GetBlobAt` call: either a
synchronous setup error or the multiplexed list of outcomes. -/
inductive BlobReply where
  | initErr (msg : String)
  | outcomes (l : List StreamOrErr)
deriving DecidableEq, Repr

/-- A blob source: behaviour of `GetBlobAt` on each batched request. -/
abbrev Source := List ImageSourceChunk → BlobReply

/-- Caller-supplied annotations; `none` models a key that is absent from
the Go map (Go lookup then yields `""`, see `lookupAnn`). -/
abbrev Ann := String → Option String

/-- Model of the external klauspost zstd `DecodeAll`: decompressed bytes
or a decompression error. -/
abbrev ZstdModel := Bytes → Except String Bytes

/-- Model of a `go-digest` hash algorithm family: algorithm name and
message to digest bytes. -/
abbrev HashModel := String → Bytes → Bytes

/-- First tar entry as seen through the external pgzip+archive/tar
pipeline: declared header size and the bytes reading the entry yields. -/
structure TarEntry where
  size : Int
  content : Bytes
deriving DecidableEq, Repr

/-- Model of the external pgzip reader + tar reader composition applied to
a fetched stream: the first entry, or a gzip/tar error. -/
abbrev GzipTarModel := Bytes → Except String TarEntry

/-- Instrumentation of a run: fetch calls issued to the source, stream ids
the source handed over, stream ids closed by the reader. -/
structure Trace where
  fetchCalls : List (List ImageSourceChunk)
  opened : List Nat
  closed : List Nat
deriving DecidableEq, Repr

def Trace.empty : Trace := ⟨[], [], []⟩

def Trace.recordFetch (t : Trace) (c : List ImageSourceChunk) : Trace :=
  { t with fetchCalls := t.fetchCalls ++ [c] }

def Trace.recordOpen (t : Trace) (ids : List Nat) : Trace :=
  { t with opened := t.opened ++ ids }

def Trace.close (t : Trace) (i : Nat) : Trace :=
  { t with closed := t.closed ++ [i] }

/-- Go map lookup `annotations[k]`: the empty string when absent. -/
def lookupAnn (a : Ann) (k : String) : String := (a k).getD ""

/-- Constant from the source: `maxTocSize = (1 << 20) * 50`. -/
def maxTocSize : Nat := (1 <<< 20) * 50

/-- Modelled from the spec: `internal.FooterSizeSupported` (the `internal`
package is not under `src/`); the native footer is 56 bytes. -/
def FooterSizeSupported : Nat := 56

/-- Modelled from the spec: `internal.ManifestTypeCRFS`, the single
recognized manifest-type tag. -/
def ManifestTypeCRFS : Nat := 1

/-- Modelled from the spec: `internal.ZstdChunkedFrameMagic`, the reserved
8-byte magic sequence at footer bytes [48:56). Only its exact-match role
matters here; the concrete byte values are arbitrary. -/
def ZstdChunkedFrameMagic : Bytes := [0x47, 0x6e, 0x55, 0x6c, 0x49, 0x6e, 0x55, 0x78]

/-- Modelled from the spec: `internal.ManifestChecksumKey`. -/
def ManifestChecksumKey : String := "io.github.containers.zstd-chunked.manifest-checksum"

/-- Modelled from the spec: `internal.ManifestInfoKey` (the metadata
annotation holding `offset:length:lengthUncompressed:type`). -/
def ManifestInfoKey : String := "io.github.containers.zstd-chunked.manifest-position"

/-- Modelled from the spec: `internal.TarSplitInfoKey`. -/
def TarSplitInfoKey : String := "io.github.containers.zstd-chunked.tarsplit-position"

/-- Modelled from the spec: `internal.TarSplitChecksumKey`. -/
def TarSplitChecksumKey : String := "io.github.containers.zstd-chunked.tarsplit-checksum"

/-- Modelled from the spec: `estargz.TOCJSONDigestAnnotation`, the key of
the digest the gzip-family manifest is validated against. -/
def tocJSONDigestKey : String := "containerd.io/snapshot/stargz/toc.digest"

/-- Little-endian u64 of the first 8 bytes (`binary.LittleEndian.Uint64`). -/
def leU64 (bs : Bytes) : Nat :=
  (bs.take 8).foldr (fun b acc => b + 256 * acc) 0

/-- The 8 little-endian bytes of `n` (used to build concrete footers). -/
def u64le (n : Nat) : Bytes :=
  [n % 256, n / 256 % 256, n / 256 ^ 2 % 256, n / 256 ^ 3 % 256,
   n / 256 ^ 4 % 256, n / 256 ^ 5 % 256, n / 256 ^ 6 % 256, n / 256 ^ 7 % 256]

/-- Go conversion `uint64(i)` of a (possibly negative) `int64` value. -/
def u64ofInt (i : Int) : Nat := (Int.emod i (2 ^ 64)).toNat

/-- Go conversion `int64(n)` of a `uint64` value. -/
def i64ofNat (n : Nat) : Int :=
  let m : Nat := n % 2 ^ 64
  if m < 2 ^ 63 then (m : Int) else (m : Int) - 2 ^ 64

/-- Result of a Go `int64` arithmetic expression: two's-complement
wrap-around of the unbounded value (wrapping the final value is the same
as wrapping every intermediate operation, as the operands agree modulo
2^64). -/
def i64wrap (i : Int) : Int := i64ofNat (u64ofInt i)

def hexDigitChar (n : Nat) : Char :=
  if n < 10 then Char.ofNat (48 + n) else Char.ofNat (87 + n)

/-- Lowercase hex encoding of a byte string (`go-digest` digest hex). -/
def bytesToHex (bs : Bytes) : String :=
  String.mk (bs.foldr (fun b acc => hexDigitChar (b / 16 % 16) :: hexDigitChar (b % 16) :: acc) [])

def splitColonAux : List Char → List Char → List String
  | [], cur => [String.mk cur.reverse]
  | c :: rest, cur =>
    if c = ':' then String.mk cur.reverse :: splitColonAux rest []
    else splitColonAux rest (c :: cur)

/-- Split a string at every colon. -/
def splitColon (s : String) : List String := splitColonAux s.toList []

def decDigitsVal (cs : List Char) : Nat :=
  cs.foldl (fun acc c => acc * 10 + (c.toNat - 48)) 0

/-- A full decimal field of `fmt.Sscanf` `%d` followed by a literal `:`:
the whole field must be digits (whitespace skipping is not modelled), and
a value that does not fit the `uint64` target is a range error, as in
Go's scan verbs. -/
def parseDecAll (s : String) : Option Nat :=
  let cs := s.toList
  if cs ≠ [] ∧ cs.all Char.isDigit then
    let v := decDigitsVal cs
    if v < 2 ^ 64 then some v else none
  else none

/-- The final `%d` of an `fmt.Sscanf` format: a nonempty leading run of
digits (trailing input is ignored), with the same `uint64` range check
as `parseDecAll`. -/
def parseDecLeading (s : String) : Option Nat :=
  let ds := s.toList.takeWhile Char.isDigit
  if ds = [] then none
  else
    let v := decDigitsVal ds
    if v < 2 ^ 64 then some v else none

/-- Model of `fmt.Sscanf(s, "%d:%d:%d:%d", ...)` on unsigned targets. -/
def sscanf4 (s : String) : Option (Nat × Nat × Nat × Nat) :=
  match splitColon s with
  | a :: b :: c :: d :: _ =>
    match parseDecAll a, parseDecAll b, parseDecAll c, parseDecLeading d with
    | some a', some b', some c', some d' => some (a', b', c', d')
    | _, _, _, _ => none
  | _ => none

/-- Model of `fmt.Sscanf(s, "%d:%d:%d", ...)` on unsigned targets. -/
def sscanf3 (s : String) : Option (Nat × Nat × Nat) :=
  match splitColon s with
  | a :: b :: c :: _ =>
    match parseDecAll a, parseDecAll b, parseDecLeading c with
    | some a', some b', some c' => some (a', b', c')
    | _, _, _ => none
  | _ => none

def hexVal (b : Nat) : Option Nat :=
  if 48 ≤ b ∧ b ≤ 57 then some (b - 48)
  else if 97 ≤ b ∧ b ≤ 102 then some (b - 87)
  else if 65 ≤ b ∧ b ≤ 70 then some (b - 55)
  else none

def hexValFold : Bytes → Nat → Option Nat
  | [], acc => some acc
  | b :: rest, acc =>
    match hexVal b with
    | none => none
    | some v => hexValFold rest (acc * 16 + v)

/-- Model of `strconv.ParseInt(string(bs), 16, 64)`: optional sign, then
nonempty hex digits, with the int64 range check. -/
def parseHexInt64 (bs : Bytes) : Option Int :=
  match bs with
  | [] => none
  | b :: rest =>
    let p : Bool × Bytes :=
      if b = 45 then (true, rest) else if b = 43 then (false, rest) else (false, bs)
    match p.2 with
    | [] => none
    | _ =>
      match hexValFold p.2 0 with
      | none => none
      | some v =>
        if p.1 then (if v ≤ 2 ^ 63 then some (-(v : Int)) else none)
        else (if v < 2 ^ 63 then some (v : Int) else none)

def isLowerHexChar (c : Char) : Bool :=
  c.isDigit || (97 ≤ c.toNat && c.toNat ≤ 102)

/-- Hex length of the supported `go-digest` algorithms. -/
def algHexLen (alg : String) : Option Nat :=
  if alg = "sha256" then some 64
  else if alg = "sha384" then some 96
  else if alg = "sha512" then some 128
  else none

/-- Model of `digest.Parse`: `alg:hex` with a supported algorithm and a
well-formed hex encoding of the right length. -/
def digestParse (s : String) : Option (String × String) :=
  match splitColon s with
  | [alg, enc] =>
    match algHexLen alg with
    | none => none
    | some n =>
      if enc.length = n ∧ enc.toList.all isLowerHexChar then some (alg, enc) else none
  | _ => none

/-- Source lines 44-49: `isZstdChunkedFrameMagic`. -/
def isZstdChunkedFrameMagic (data : Bytes) : Bool :=
  if data.length < 8 then false
  else data.take 8 == ZstdChunkedFrameMagic

def streamIds : List StreamOrErr → List Nat
  | [] => []
  | .stream s :: rest => s.id :: streamIds rest
  | .err _ :: rest => streamIds rest

/-- Modelled from the spec: the repository helper `getBlobAt` (not under
`src/`) forwards the batched request to `GetBlobAt` and yields one
outcome per requested range over a channel, or fails synchronously. The
trace records the fetch call and the stream ids handed over. -/
def getBlobAt (source : Source) (chunks : List ImageSourceChunk) (t : Trace) :
    Except String (List StreamOrErr) × Trace :=
  let t' := t.recordFetch chunks
  match source chunks with
  | .initErr e => (.error e, t')
  | .outcomes l => (.ok l, t'.recordOpen (streamIds l))

/-- Modelled from the spec: the repository helper `ensureAllBlobsDone`
(not under `src/`) drains every remaining outcome, closes each remaining
stream, and reports the first error among the drained outcomes. -/
def ensureAllBlobsDone : List StreamOrErr → Trace → Option String × Trace
  | [], t => (none, t)
  | .stream s :: rest, t => ensureAllBlobsDone rest (t.close s.id)
  | .err e :: rest, t =>
    let p := ensureAllBlobsDone rest t
    (some e, p.2)

/-- Source lines 256-271: the `readBlob` closure of
`readZstdChunkedManifest`. Takes the next outcome; a closed channel is
"stream closed"; an error outcome aborts; a stream is read for exactly
`n` bytes (short data is a read error) and closed either way. -/
def readBlob (n : Nat) : List StreamOrErr → Trace →
    Except String Bytes × List StreamOrErr × Trace
  | [], t => (.error "stream closed", [], t)
  | .err e :: rest, t => (.error e, rest, t)
  | .stream s :: rest, t =>
    let t' := t.close s.id
    if n ≤ s.data.length then (.ok (s.data.take n), rest, t')
    else if s.data.length = 0 then (.error "EOF", rest, t')
    else (.error "unexpected EOF", rest, t')

/-- Source lines 297-320: `decodeAndValidateBlob`. Parses the expected
digest string, hashes the raw `blob` argument with the parsed algorithm,
compares, and only then zstd-decodes. `lengthUncompressed` is used in Go
only as the initial capacity of the output buffer, so it does not affect
the returned value. -/
def decodeAndValidateBlob (zD : ZstdModel) (hM : HashModel)
    (blob : Bytes) (lengthUncompressed : Nat) (expectedUncompressedChecksum : String) :
    Except String Bytes :=
  match digestParse expectedUncompressedChecksum with
  | none => .error "invalid checksum digest format"
  | some d =>
    let computedHex := bytesToHex (hM d.1 blob)
    if computedHex ≠ d.2 then
      .error ("invalid blob checksum, expected checksum " ++ d.1 ++ ":" ++ d.2 ++
        ", got " ++ d.1 ++ ":" ++ computedHex)
    else zD blob

/-- The batched chunk list of source lines 229-242: the manifest range,
plus the tar-split range when `offsetTarSplit > 0`. -/
def zstdChunks (offset length offsetTarSplit lengthTarSplit : Nat) : List ImageSourceChunk :=
  ⟨offset, length⟩ :: (if offsetTarSplit > 0 then [⟨offsetTarSplit, lengthTarSplit⟩] else [])

/-- Source lines 273-294: the consumption part of `readZstdChunkedManifest`
that runs under the deferred `ensureAllBlobsDone`: read and validate the
manifest, then, when a tar-split range was requested, read and validate
the tar-split independently against its own checksum annotation. -/
def zstdBody (zD : ZstdModel) (hM : HashModel)
    (manifestChecksumAnn tarSplitChecksumAnn : String)
    (length lengthUncompressed offsetTarSplit lengthTarSplit lengthUncompressedTarSplit offset : Nat)
    (outcomes : List StreamOrErr) (t : Trace) :
    Except String (Bytes × Bytes × Int) × List StreamOrErr × Trace :=
  match readBlob length outcomes t with
  | (.error e, rem, t') => (.error e, rem, t')
  | (.ok manifest, rem, t') =>
    match decodeAndValidateBlob zD hM manifest lengthUncompressed manifestChecksumAnn with
    | .error e => (.error e, rem, t')
    | .ok decodedBlob =>
      if offsetTarSplit > 0 then
        match readBlob lengthTarSplit rem t' with
        | (.error e, rem', t2) => (.error e, rem', t2)
        | (.ok tarSplit, rem', t2) =>
          match decodeAndValidateBlob zD hM tarSplit lengthUncompressedTarSplit tarSplitChecksumAnn with
          | .error e => (.error e, rem', t2)
          | .ok decodedTarSplit => (.ok (decodedBlob, decodedTarSplit, i64ofNat offset), rem', t2)
      else (.ok (decodedBlob, [], i64ofNat offset), rem, t')

/-- Go's named-return pattern of source lines 249-254: the deferred
`ensureAllBlobsDone` error replaces the returned error only when the
body returned a nil error. -/
def applyDeferErr (res : Except String (Bytes × Bytes × Int)) (deferErr : Option String) :
    Except String (Bytes × Bytes × Int) :=
  match res, deferErr with
  | .ok _, some msg => .error msg
  | r, _ => r

/-- Source lines 217-294: the common tail of `readZstdChunkedManifest`
after the manifest location is known (from annotation or footer): type
check, the two 50 MiB ceilings, the single batched fetch, the body, and
the deferred `ensureAllBlobsDone` which can only replace a nil error. -/
def zstdAfterLocation (zD : ZstdModel) (hM : HashModel) (source : Source)
    (manifestChecksumAnn tarSplitChecksumAnn : String)
    (offset length lengthUncompressed manifestType offsetTarSplit lengthTarSplit lengthUncompressedTarSplit : Nat)
    (t : Trace) : Except String (Bytes × Bytes × Int) × Trace :=
  if manifestType ≠ ManifestTypeCRFS then (.error "invalid manifest type", t)
  else if length > maxTocSize then (.error "manifest too big", t)
  else if lengthUncompressed > maxTocSize then (.error "manifest too big", t)
  else
    match getBlobAt source (zstdChunks offset length offsetTarSplit lengthTarSplit) t with
    | (.error e, t') => (.error e, t')
    | (.ok outcomes, t') =>
      let b := zstdBody zD hM manifestChecksumAnn tarSplitChecksumAnn
        length lengthUncompressed offsetTarSplit lengthTarSplit lengthUncompressedTarSplit offset
        outcomes t'
      let e := ensureAllBlobsDone b.2.1 b.2.2
      (applyDeferErr b.1 e.1, e.2)

/-- Source lines 157-294: `readZstdChunkedManifest`. Returns (manifest,
tar-split, manifest offset) or an error, together with the trace. When
the metadata annotation is present it supplies offset/length/type and
the footer is not read; otherwise a 56-byte footer is fetched from the
blob tail via a direct `GetBlobAt` whose stream is read once and — as in
the source — never closed. -/
def readZstdChunkedManifest (zD : ZstdModel) (hM : HashModel) (source : Source)
    (blobSize : Int) (ann : Ann) : Except String (Bytes × Bytes × Int) × Trace :=
  let footerSize : Int := (FooterSizeSupported : Int)
  if blobSize ≤ footerSize then (.error "blob too small", Trace.empty)
  else
    let manifestChecksumAnn := lookupAnn ann ManifestChecksumKey
    if manifestChecksumAnn = "" then
      (.error ("manifest checksum annotation \"" ++ ManifestChecksumKey ++ "\" not found"),
        Trace.empty)
    else
      let offsetMetadata := lookupAnn ann ManifestInfoKey
      if offsetMetadata ≠ "" then
        match sscanf4 offsetMetadata with
        | none => (.error "input does not match format", Trace.empty)
        | some (offset, length, lengthUncompressed, manifestType) =>
          match ann TarSplitInfoKey with
          | some tsInfo =>
            match sscanf3 tsInfo with
            | none => (.error "input does not match format", Trace.empty)
            | some (offsetTarSplit, lengthTarSplit, lengthUncompressedTarSplit) =>
              zstdAfterLocation zD hM source manifestChecksumAnn (lookupAnn ann TarSplitChecksumKey)
                offset length lengthUncompressed manifestType
                offsetTarSplit lengthTarSplit lengthUncompressedTarSplit Trace.empty
          | none =>
            zstdAfterLocation zD hM source manifestChecksumAnn ""
              offset length lengthUncompressed manifestType 0 0 0 Trace.empty
      else
        match getBlobAt source [⟨u64ofInt (blobSize - footerSize), u64ofInt footerSize⟩] Trace.empty with
        | (.error e, t) => (.error e, t)
        | (.ok outcomes, t) =>
          match outcomes with
          | [] => (.error "model artifact: empty outcome channel", t)
          | .err e :: _ => (.error e, t)
          | .stream s :: _ =>
            if FooterSizeSupported ≤ s.data.length then
              let footer := s.data.take FooterSizeSupported
              if isZstdChunkedFrameMagic (footer.drop 48) then
                zstdAfterLocation zD hM source manifestChecksumAnn ""
                  (leU64 footer) (leU64 (footer.drop 8)) (leU64 (footer.drop 16))
                  (leU64 (footer.drop 24)) 0 0 0 t
              else (.error "invalid magic number", t)
            else if s.data.length = 0 then (.error "EOF", t)
            else (.error "unexpected EOF", t)

/-- Source lines 64-72: the footer loop of `readEstargzChunkedManifest`.
The 51-byte zero-initialized buffer receives whatever each stream
yields (a short stream leaves the tail zeros in place); every stream is
closed. The loop's read error is dropped by the source before the
footer is parsed (lines 83 on), so only the buffer and the closes are
observable. -/
def estargzFooterLoop : List StreamOrErr → Bytes → Trace → Bytes × Trace
  | [], footer, t => (footer, t)
  | .stream s :: rest, footer, t =>
    estargzFooterLoop rest (s.data.take 51 ++ footer.drop (min s.data.length 51)) (t.close s.id)
  | .err _ :: rest, footer, t => estargzFooterLoop rest footer t

/-- Source lines 103-128: the per-stream closure of the ToC loop of
`readEstargzChunkedManifest`: gzip-decode, first tar entry, the 50 MiB
ceiling on the entry size, then a full read of the entry into a
zero-initialized buffer of the declared size (a short entry leaves
trailing zeros and a read error). Returns the buffer assigned to
`manifestUncompressed` (if the closure reached the allocation) and the
closure's error. A negative declared size would panic in Go at `make`;
that branch is marked as a model artifact. -/
def estargzEntryRead (gz : GzipTarModel) (data : Bytes) : Option Bytes × Option String :=
  match gz data with
  | .error e => (none, some e)
  | .ok entry =>
    if entry.size > (maxTocSize : Int) then (none, some "manifest too big")
    else if entry.size < 0 then (none, some "model artifact: make with negative size panics")
    else if entry.size.toNat ≤ entry.content.length then
      (some (entry.content.take entry.size.toNat), none)
    else
      (some (entry.content.take entry.size.toNat ++
        List.replicate (entry.size.toNat - entry.content.length) 0), some "unexpected EOF")

/-- Source lines 101-135: the ToC loop of `readEstargzChunkedManifest`.
Every stream outcome runs the closure (and is closed by its deferred
close); the first error is recorded but — as in the source — never
checked after the loop, so it is dropped by the caller. -/
def estargzTocLoop (gz : GzipTarModel) :
    List StreamOrErr → Option Bytes → Option String → Trace →
    Option Bytes × Option String × Trace
  | [], mu, e, t => (mu, e, t)
  | .stream s :: rest, mu, e, t =>
    let r := estargzEntryRead gz s.data
    let mu' := match r.1 with | none => mu | some b => some b
    let e' := if e = none then r.2 else e
    estargzTocLoop gz rest mu' e' (t.close s.id)
  | .err msg :: rest, mu, e, t =>
    estargzTocLoop gz rest mu (if e = none then some msg else e) t

/-- Source lines 51-155: `readEstargzChunkedManifest`. Returns (manifest
bytes, ToC offset) or an error, with the trace. The derived manifest
size of line 88 is computed in wrapping `int64` arithmetic, as in Go. -/
def readEstargzChunkedManifest (gz : GzipTarModel) (hM : HashModel) (source : Source)
    (blobSize : Int) (ann : Ann) : Except String (Bytes × Int) × Trace :=
  let footerSize : Int := 51
  if blobSize ≤ footerSize then (.error "blob too small", Trace.empty)
  else
    match getBlobAt source [⟨u64ofInt (blobSize - footerSize), u64ofInt footerSize⟩] Trace.empty with
    | (.error e, t) => (.error e, t)
    | (.ok outcomes, t) =>
      let p := estargzFooterLoop outcomes (List.replicate 51 0) t
      match parseHexInt64 ((p.1.drop 16).take 16) with
      | none => (.error "parse ToC offset", p.2)
      | some tocOffset =>
        let size : Int := i64wrap (blobSize - footerSize - tocOffset)
        if size > (maxTocSize : Int) then (.error "manifest too big", p.2)
        else
          match getBlobAt source [⟨u64ofInt tocOffset, u64ofInt size⟩] p.2 with
          | (.error e, t2) => (.error e, t2)
          | (.ok outcomes2, t2) =>
            let q := estargzTocLoop gz outcomes2 none none t2
            match q.1 with
            | none => (.error "manifest not found", q.2.2)
            | some manifestUncompressed =>
              match digestParse (lookupAnn ann tocJSONDigestKey) with
              | none => (.error "invalid checksum digest format", q.2.2)
              | some d =>
                if ¬ (("sha256", bytesToHex (hM "sha256" manifestUncompressed)) = d) then
                  (.error "invalid manifest checksum", q.2.2)
                else (.ok (manifestUncompressed, tocOffset), q.2.2)

/-! Concrete instantiations of the external-library models and of blob
sources / annotations, used by the witnesses and counterexamples below. -/

/-- A concrete hash model: the message padded (or truncated) to 32 bytes.
Any injective-enough hash exhibits the same structural behaviour of the
reader; this one is kernel-computable. -/
def modelHash : HashModel := fun _ bs => (bs ++ List.replicate 32 0).take 32

def asciiBytes (s : String) : Bytes := s.toList.map Char.toNat

def annNone : Ann := fun _ => none

def srcNone : Source := fun _ => .initErr "no source"

def gzNone : GzipTarModel := fun _ => .error "invalid gzip header"

/-- A gzip+tar model whose first entry declares a size above the 50 MiB
ceiling. -/
def gzBig : GzipTarModel := fun _ => .ok ⟨(maxTocSize : Int) + 1, []⟩

def zstdConst2 : ZstdModel := fun _ => .ok [2]

def zstdConst333 : ZstdModel := fun _ => .ok [3, 3, 3]

def zstdConst9 : ZstdModel := fun _ => .ok [9]

def zstdTag : ZstdModel := fun b => .ok (9 :: b.take 1)

/-- Digest string of `modelHash` on the one-byte message `[1]`. -/
def expHash1 : String :=
  "sha256:0100000000000000000000000000000000000000000000000000000000000000"

/-- A well-formed 56-byte native footer: offset 100, compressed length 2,
uncompressed length 1, manifest type 1, valid magic. -/
def footerC2 : Bytes :=
  u64le 100 ++ u64le 2 ++ u64le 1 ++ u64le 1 ++ List.replicate 16 0 ++ ZstdChunkedFrameMagic

def srcC2 : Source := fun cs =>
  if cs = [⟨944, 56⟩] then .outcomes [.stream ⟨0, footerC2⟩]
  else if cs = [⟨100, 2⟩] then .outcomes [.stream ⟨1, [1, 5]⟩]
  else .initErr "unexpected request"

def annC2 : Ann := fun k =>
  if k = ManifestChecksumKey then
    some ("sha256:0105" ++ String.mk (List.replicate 60 '0'))
  else none

/-- A 51-byte gzip-family footer whose hex ToC-offset field [16:32) reads
0x12c = 300. -/
def footerC3 : Bytes :=
  List.replicate 16 0 ++ asciiBytes "000000000000012c" ++ List.replicate 19 0

def srcC3 : Source := fun cs =>
  if cs = [⟨949, 51⟩] then .outcomes [.stream ⟨0, footerC3⟩]
  else if cs = [⟨300, 649⟩] then .outcomes [.stream ⟨1, [0]⟩]
  else .initErr "unexpected request"

/-- A 51-byte gzip-family footer whose hex ToC-offset field reads 0x3c = 60,
placing the ToC offset beyond `blobSize - 51` for a 100-byte blob. -/
def footerC8 : Bytes :=
  List.replicate 16 0 ++ asciiBytes "000000000000003c" ++ List.replicate 19 0

def srcC8 : Source := fun cs =>
  if cs = [⟨49, 51⟩] then .outcomes [.stream ⟨0, footerC8⟩]
  else if cs = [⟨60, 18446744073709551605⟩] then .outcomes [.err "range error"]
  else .initErr "unexpected request"

def annC4 : Ann := fun k =>
  if k = ManifestChecksumKey then
    some ("sha256:0105" ++ String.mk (List.replicate 60 '0'))
  else if k = ManifestInfoKey then some "100:2:1:1"
  else none

def srcC4 : Source := fun cs =>
  if cs = [⟨100, 2⟩] then .outcomes [.stream ⟨0, [1, 5]⟩]
  else if cs = [⟨944, 56⟩] then .outcomes [.stream ⟨7, footerC2⟩]
  else .initErr "unexpected request"

/-- Same source with a different reply on the footer range only. -/
def srcC4' : Source := fun cs =>
  if cs = [⟨100, 2⟩] then .outcomes [.stream ⟨0, [1, 5]⟩]
  else if cs = [⟨944, 56⟩] then .outcomes [.err "footer gone"]
  else .initErr "unexpected request"

def annC5 : Ann := fun k =>
  if k = ManifestChecksumKey then
    some ("sha256:0105" ++ String.mk (List.replicate 60 '0'))
  else if k = ManifestInfoKey then some "100:2:1:1"
  else if k = TarSplitInfoKey then some "500:3:1"
  else if k = TarSplitChecksumKey then
    some ("sha256:080808" ++ String.mk (List.replicate 58 '0'))
  else none

def srcC5 : Source := fun cs =>
  if cs = [⟨100, 2⟩, ⟨500, 3⟩] then .outcomes [.stream ⟨0, [1, 5]⟩, .stream ⟨1, [8, 8, 8]⟩]
  else .initErr "unexpected request"

def annC3 : Ann := fun k =>
  if k = ManifestChecksumKey then
    some ("sha256:0105" ++ String.mk (List.replicate 60 '0'))
  else if k = ManifestInfoKey then some "100:52428801:1:1"
  else none

/-- The batched chunk list a run derives from the metadata annotations
alone (empty when they do not parse); used to state that the annotation
path is authoritative. -/
def annDerivedChunks (ann : Ann) : List ImageSourceChunk :=
  match sscanf4 (lookupAnn ann ManifestInfoKey) with
  | none => []
  | some (o, l, _, _) =>
    match ann TarSplitInfoKey with
    | some ts =>
      match sscanf3 ts with
      | none => []
      | some (oTS, lTS, _) => zstdChunks o l oTS lTS
    | none => zstdChunks o l 0 0

/-! Helper lemmas about how the pieces of `readZstdChunkedManifest` move
the trace around. -/

@[simp]
lemma readBlob_fetchCalls (n : Nat) (l : List StreamOrErr) (t : Trace) :
    (readBlob n l t).2.2.fetchCalls = t.fetchCalls := by
  match l with
  | [] => simp [readBlob]
  | .err e :: rest => simp [readBlob]
  | .stream s :: rest =>
    simp only [readBlob]
    split
    · simp [Trace.close]
    split <;> simp [Trace.close]

@[simp]
lemma readBlob_opened (n : Nat) (l : List StreamOrErr) (t : Trace) :
    (readBlob n l t).2.2.opened = t.opened := by
  match l with
  | [] => simp [readBlob]
  | .err e :: rest => simp [readBlob]
  | .stream s :: rest =>
    simp only [readBlob]
    split
    · simp [Trace.close]
    split <;> simp [Trace.close]

@[simp]
lemma ensureAllBlobsDone_fetchCalls (l : List StreamOrErr) (t : Trace) :
    (ensureAllBlobsDone l t).2.fetchCalls = t.fetchCalls := by
  induction l generalizing t with
  | nil => simp [ensureAllBlobsDone]
  | cons hd rest ih =>
    cases hd with
    | stream s => simpa [ensureAllBlobsDone, Trace.close] using ih (t.close s.id)
    | err e => simpa [ensureAllBlobsDone] using ih t

@[simp]
lemma ensureAllBlobsDone_opened (l : List StreamOrErr) (t : Trace) :
    (ensureAllBlobsDone l t).2.opened = t.opened := by
  induction l generalizing t with
  | nil => simp [ensureAllBlobsDone]
  | cons hd rest ih =>
    cases hd with
    | stream s => simpa [ensureAllBlobsDone, Trace.close] using ih (t.close s.id)
    | err e => simpa [ensureAllBlobsDone] using ih t

@[simp]
lemma zstdBody_fetchCalls (zD : ZstdModel) (hM : HashModel) (cs tcs : String)
    (l lu oTS lTS luTS o : Nat) (outs : List StreamOrErr) (t : Trace) :
    (zstdBody zD hM cs tcs l lu oTS lTS luTS o outs t).2.2.fetchCalls = t.fetchCalls := by
  unfold zstdBody
  rcases h1 : readBlob l outs t with ⟨res1, rem1, t1⟩
  have e1 : t1.fetchCalls = t.fetchCalls := by
    have := readBlob_fetchCalls l outs t; rw [h1] at this; exact this
  cases res1 with
  | error e => simpa using e1
  | ok manifest =>
    simp only
    split
    · simpa using e1
    split
    · rcases h2 : readBlob lTS rem1 t1 with ⟨res2, rem2, t2⟩
      have e2 : t2.fetchCalls = t1.fetchCalls := by
        have := readBlob_fetchCalls lTS rem1 t1; rw [h2] at this; exact this
      cases res2 with
      | error e => simp only; rw [e2, e1]
      | ok tarSplit =>
        simp only
        split <;> simp only <;> rw [e2, e1]
    · simpa using e1

@[simp]
lemma zstdBody_opened (zD : ZstdModel) (hM : HashModel) (cs tcs : String)
    (l lu oTS lTS luTS o : Nat) (outs : List StreamOrErr) (t : Trace) :
    (zstdBody zD hM cs tcs l lu oTS lTS luTS o outs t).2.2.opened = t.opened := by
  unfold zstdBody
  rcases h1 : readBlob l outs t with ⟨res1, rem1, t1⟩
  have e1 : t1.opened = t.opened := by
    have := readBlob_opened l outs t; rw [h1] at this; exact this
  cases res1 with
  | error e => simpa using e1
  | ok manifest =>
    simp only
    split
    · simpa using e1
    split
    · rcases h2 : readBlob lTS rem1 t1 with ⟨res2, rem2, t2⟩
      have e2 : t2.opened = t1.opened := by
        have := readBlob_opened lTS rem1 t1; rw [h2] at this; exact this
      cases res2 with
      | error e => simp only; rw [e2, e1]
      | ok tarSplit =>
        simp only
        split <;> simp only <;> rw [e2, e1]
    · simpa using e1

lemma applyDeferErr_ok (res : Except String (Bytes × Bytes × Int)) (d : Option String)
    (r : Bytes × Bytes × Int) (h : applyDeferErr res d = .ok r) : res = .ok r := by
  cases res with
  | error e => cases d <;> simp [applyDeferErr] at h
  | ok v => cases d <;> simp_all [applyDeferErr]

lemma zstdAfterLocation_fetchCalls (zD : ZstdModel) (hM : HashModel) (source : Source)
    (cs tcs : String) (o l lu mt oTS lTS luTS : Nat) (t : Trace) :
    (zstdAfterLocation zD hM source cs tcs o l lu mt oTS lTS luTS t).2.fetchCalls = t.fetchCalls ∨
    (zstdAfterLocation zD hM source cs tcs o l lu mt oTS lTS luTS t).2.fetchCalls =
      t.fetchCalls ++ [zstdChunks o l oTS lTS] := by
  unfold zstdAfterLocation getBlobAt
  split
  · left; rfl
  split
  · left; rfl
  split
  · left; rfl
  cases hs : source (zstdChunks o l oTS lTS) with
  | initErr e => right; simp [Trace.recordFetch]
  | outcomes outs =>
    right
    simp only
    rw [ensureAllBlobsDone_fetchCalls, zstdBody_fetchCalls]
    simp [Trace.recordFetch, Trace.recordOpen]

lemma zstdAfterLocation_source_congr (zD : ZstdModel) (hM : HashModel)
    (source source' : Source) (cs tcs : String) (o l lu mt oTS lTS luTS : Nat) (t : Trace)
    (h : source' (zstdChunks o l oTS lTS) = source (zstdChunks o l oTS lTS)) :
    zstdAfterLocation zD hM source' cs tcs o l lu mt oTS lTS luTS t =
    zstdAfterLocation zD hM source cs tcs o l lu mt oTS lTS luTS t := by
  unfold zstdAfterLocation getBlobAt
  rw [h]

lemma zstdAfterLocation_too_big (zD : ZstdModel) (hM : HashModel) (source : Source)
    (cs tcs : String) (o l lu oTS lTS luTS : Nat) (t : Trace)
    (hbig : maxTocSize < l ∨ maxTocSize < lu) :
    zstdAfterLocation zD hM source cs tcs o l lu ManifestTypeCRFS oTS lTS luTS t =
      (.error "manifest too big", t) := by
  unfold zstdAfterLocation
  rw [if_neg (by simp)]
  by_cases hl : l > maxTocSize
  · rw [if_pos hl]
  · rw [if_neg hl, if_pos (by omega)]

lemma zstdBody_ok (zD : ZstdModel) (hM : HashModel) (cs tcs : String)
    (l lu oTS lTS luTS o : Nat) (outs : List StreamOrErr) (t : Trace) (r : Bytes × Bytes × Int)
    (h : (zstdBody zD hM cs tcs l lu oTS lTS luTS o outs t).1 = .ok r) :
    r.2.2 = i64ofNat o ∧ (oTS = 0 → r.2.1 = []) := by
  unfold zstdBody at h
  rcases h1 : readBlob l outs t with ⟨res1, rem1, t1⟩
  rw [h1] at h
  cases res1 with
  | error e => simp at h
  | ok manifest =>
    simp only at h
    split at h
    · simp at h
    split at h
    case isTrue hpos =>
      rcases h2 : readBlob lTS rem1 t1 with ⟨res2, rem2, t2⟩
      rw [h2] at h
      cases res2 with
      | error e => simp at h
      | ok tarSplit =>
        simp only at h
        split at h
        · simp at h
        · simp only [Except.ok.injEq] at h
          rw [← h]
          exact ⟨rfl, fun h0 => by omega⟩
    case isFalse hz =>
      simp only [Except.ok.injEq] at h
      rw [← h]
      exact ⟨rfl, fun _ => rfl⟩

lemma zstdAfterLocation_ok (zD : ZstdModel) (hM : HashModel) (source : Source)
    (cs tcs : String) (o l lu mt oTS lTS luTS : Nat) (t : Trace) (r : Bytes × Bytes × Int)
    (h : (zstdAfterLocation zD hM source cs tcs o l lu mt oTS lTS luTS t).1 = .ok r) :
    r.2.2 = i64ofNat o ∧ (oTS = 0 → r.2.1 = []) := by
  unfold zstdAfterLocation at h
  split at h
  · simp at h
  split at h
  · simp at h
  split at h
  · simp at h
  rcases hg : getBlobAt source (zstdChunks o l oTS lTS) t with ⟨res, tg⟩
  rw [hg] at h
  cases res with
  | error e => simp at h
  | ok outs =>
    simp only at h
    exact zstdBody_ok zD hM cs tcs l lu oTS lTS luTS o outs tg r (applyDeferErr_ok _ _ _ h)

lemma footerSizeCast : ((FooterSizeSupported : Nat) : Int) = 56 := by
  norm_num [FooterSizeSupported]

lemma sscanf4_ne_empty (s : String) (p : Nat × Nat × Nat × Nat) (h : sscanf4 s = some p) :
    s ≠ "" := by
  intro he
  rw [he, (by decide : sscanf4 "" = (none : Option (Nat × Nat × Nat × Nat)))] at h
  exact Option.noConfusion h

lemma isZstdChunkedFrameMagic_iff (data : Bytes) (h : 8 ≤ data.length) :
    isZstdChunkedFrameMagic data = true ↔ data.take 8 = ZstdChunkedFrameMagic := by
  unfold isZstdChunkedFrameMagic
  rw [if_neg (by omega)]
  exact beq_iff_eq

/-- Reduction of `readZstdChunkedManifest` on the annotation path with a
tar-split annotation present. -/
lemma readZstd_ann_reduce_ts (zD : ZstdModel) (hM : HashModel) (source : Source)
    (blobSize : Int) (ann : Ann) (o l lu mt oTS lTS luTS : Nat) (tsStr : String)
    (hb : 56 < blobSize) (hcs : lookupAnn ann ManifestChecksumKey ≠ "")
    (hinfo : sscanf4 (lookupAnn ann ManifestInfoKey) = some (o, l, lu, mt))
    (hts : ann TarSplitInfoKey = some tsStr)
    (hts3 : sscanf3 tsStr = some (oTS, lTS, luTS)) :
    readZstdChunkedManifest zD hM source blobSize ann =
      zstdAfterLocation zD hM source (lookupAnn ann ManifestChecksumKey)
        (lookupAnn ann TarSplitChecksumKey) o l lu mt oTS lTS luTS Trace.empty := by
  have hne := sscanf4_ne_empty _ _ hinfo
  simp only [readZstdChunkedManifest, footerSizeCast]
  rw [if_neg (by omega), if_neg hcs, if_pos hne]
  simp only [hinfo, hts, hts3]

/-- Reduction of `readZstdChunkedManifest` on the annotation path with no
tar-split annotation. -/
lemma readZstd_ann_reduce_nots (zD : ZstdModel) (hM : HashModel) (source : Source)
    (blobSize : Int) (ann : Ann) (o l lu mt : Nat)
    (hb : 56 < blobSize) (hcs : lookupAnn ann ManifestChecksumKey ≠ "")
    (hinfo : sscanf4 (lookupAnn ann ManifestInfoKey) = some (o, l, lu, mt))
    (hts : ann TarSplitInfoKey = none) :
    readZstdChunkedManifest zD hM source blobSize ann =
      zstdAfterLocation zD hM source (lookupAnn ann ManifestChecksumKey) ""
        o l lu mt 0 0 0 Trace.empty := by
  have hne := sscanf4_ne_empty _ _ hinfo
  simp only [readZstdChunkedManifest, footerSizeCast]
  rw [if_neg (by omega), if_neg hcs, if_pos hne]
  simp only [hinfo, hts]

/-- Reduction of `readZstdChunkedManifest` on the footer path, once the
source has delivered a footer stream of exactly 56 bytes. -/
lemma readZstd_footer_reduce (zD : ZstdModel) (hM : HashModel) (source : Source)
    (blobSize : Int) (ann : Ann) (i : Nat) (f : Bytes) (rest : List StreamOrErr)
    (hb : 56 < blobSize) (hcs : lookupAnn ann ManifestChecksumKey ≠ "")
    (hinfo : lookupAnn ann ManifestInfoKey = "")
    (hsrc : source [⟨u64ofInt (blobSize - 56), 56⟩] = .outcomes (.stream ⟨i, f⟩ :: rest))
    (hlen : f.length = 56) :
    readZstdChunkedManifest zD hM source blobSize ann =
      if f.drop 48 = ZstdChunkedFrameMagic then
        zstdAfterLocation zD hM source (lookupAnn ann ManifestChecksumKey) ""
          (leU64 f) (leU64 (f.drop 8)) (leU64 (f.drop 16)) (leU64 (f.drop 24)) 0 0 0
          ⟨[[⟨u64ofInt (blobSize - 56), 56⟩]], i :: streamIds rest, []⟩
      else (.error "invalid magic number",
        ⟨[[⟨u64ofInt (blobSize - 56), 56⟩]], i :: streamIds rest, []⟩) := by
  have h56c : u64ofInt (56 : Int) = 56 := by decide
  have hdlen : (f.drop 48).length = 8 := by rw [List.length_drop, hlen]
  have htake8 : (f.drop 48).take 8 = f.drop 48 :=
    List.take_of_length_le (by rw [hdlen])
  have htake : f.take FooterSizeSupported = f := by
    rw [show FooterSizeSupported = f.length by rw [hlen]; rfl]
    exact List.take_length f
  simp only [readZstdChunkedManifest, footerSizeCast, getBlobAt, h56c]
  rw [hinfo]
  rw [if_neg (by omega), if_neg hcs, if_neg (by simp)]
  simp only [hsrc, streamIds]
  rw [if_pos (by rw [hlen]; decide)]
  rw [htake]
  by_cases hm : f.drop 48 = ZstdChunkedFrameMagic
  · rw [if_pos ((isZstdChunkedFrameMagic_iff _ (by rw [hdlen])).mpr (htake8.trans hm)),
      if_pos hm]
    simp [Trace.empty, Trace.recordFetch, Trace.recordOpen]
  · rw [if_neg (fun hc => hm (htake8.symm.trans ((isZstdChunkedFrameMagic_iff _ (by rw [hdlen])).mp hc))),
      if_neg hm]
    simp [Trace.empty, Trace.recordFetch, Trace.recordOpen]

lemma estargzFooterLoop_single (i : Nat) (f : Bytes) (t : Trace) (hlen : f.length = 51) :
    estargzFooterLoop [.stream ⟨i, f⟩] (List.replicate 51 0) t = (f, t.close i) := by
  have h1 : f.take 51 = f := by rw [← hlen]; exact List.take_length f
  have h2 : min f.length 51 = 51 := by rw [hlen]; exact min_self 51
  simp only [estargzFooterLoop, h1, h2,
    (by decide : (List.replicate 51 (0 : Nat)).drop 51 = ([] : Bytes)), List.append_nil]

lemma estargzTocLoop_entry_big (gz : GzipTarModel) (j : Nat) (d : Bytes) (t : Trace)
    (entry : TarEntry) (hgz : gz d = .ok entry) (hbig : (maxTocSize : Int) < entry.size) :
    estargzTocLoop gz [.stream ⟨j, d⟩] none none t =
      (none, some "manifest too big", t.close j) := by
  simp only [estargzTocLoop, estargzEntryRead, hgz]
  rw [if_pos hbig]
  simp [estargzTocLoop]

/-- Reduction of `readEstargzChunkedManifest` to the "manifest too big"
failure before the second fetch, when the derived size exceeds the
ceiling. -/
lemma readEstargz_too_big (gz : GzipTarModel) (hM : HashModel) (source : Source)
    (blobSize : Int) (ann : Ann) (i : Nat) (f : Bytes) (toc : Int)
    (hb : 51 < blobSize)
    (hsrc : source [⟨u64ofInt (blobSize - 51), 51⟩] = .outcomes [.stream ⟨i, f⟩])
    (hlen : f.length = 51)
    (htoc : parseHexInt64 ((f.drop 16).take 16) = some toc)
    (hbig : (maxTocSize : Int) < i64wrap (blobSize - 51 - toc)) :
    readEstargzChunkedManifest gz hM source blobSize ann =
      (.error "manifest too big", ⟨[[⟨u64ofInt (blobSize - 51), 51⟩]], [i], [i]⟩) := by
  simp only [readEstargzChunkedManifest, getBlobAt,
    (by decide : u64ofInt (51 : Int) = 51)]
  rw [if_neg (by omega)]
  simp only [hsrc, streamIds]
  rw [estargzFooterLoop_single i f _ hlen]
  simp only [htoc]
  rw [if_pos hbig]
  simp [Trace.empty, Trace.recordFetch, Trace.recordOpen, Trace.close]

/-- Reduction of `readEstargzChunkedManifest` when the ToC region is
fetched and decompressed but the first tar entry declares a size above
the ceiling: the loop error is dropped and the read fails with
"manifest not found" after both fetches. -/
lemma readEstargz_entry_too_big (gz : GzipTarModel) (hM : HashModel) (source : Source)
    (blobSize : Int) (ann : Ann) (i j : Nat) (f d : Bytes) (toc : Int) (entry : TarEntry)
    (hb : 51 < blobSize)
    (hsrc : source [⟨u64ofInt (blobSize - 51), 51⟩] = .outcomes [.stream ⟨i, f⟩])
    (hlen : f.length = 51)
    (htoc : parseHexInt64 ((f.drop 16).take 16) = some toc)
    (hsmall : ¬ (maxTocSize : Int) < i64wrap (blobSize - 51 - toc))
    (hsrc2 : source [⟨u64ofInt toc, u64ofInt (i64wrap (blobSize - 51 - toc))⟩] =
      .outcomes [.stream ⟨j, d⟩])
    (hgz : gz d = .ok entry)
    (hbig : (maxTocSize : Int) < entry.size) :
    readEstargzChunkedManifest gz hM source blobSize ann =
      (.error "manifest not found",
        ⟨[[⟨u64ofInt (blobSize - 51), 51⟩],
            [⟨u64ofInt toc, u64ofInt (i64wrap (blobSize - 51 - toc))⟩]],
          [i, j], [i, j]⟩) := by
  simp only [readEstargzChunkedManifest, getBlobAt,
    (by decide : u64ofInt (51 : Int) = 51)]
  rw [if_neg (by omega)]
  simp only [hsrc, streamIds]
  rw [estargzFooterLoop_single i f _ hlen]
  simp only [htoc]
  rw [if_neg hsmall]
  simp only [hsrc2, streamIds]
  rw [estargzTocLoop_entry_big gz j d _ entry hgz hbig]
  simp [Trace.empty, Trace.recordFetch, Trace.recordOpen, Trace.close]

/-- Reduction of the common tail when the batched fetch delivers exactly
the two requested streams: the manifest stream is validated against the
manifest checksum, the tar-split stream against its own, and both
streams are closed. -/
lemma zstdAfterLocation_two_streams (zD : ZstdModel) (hM : HashModel) (source : Source)
    (cs tcs : String) (o l lu oTS lTS luTS : Nat) (t : Trace)
    (i j : Nat) (d1 d2 : Bytes)
    (hsrc : source (zstdChunks o l oTS lTS) = .outcomes [.stream ⟨i, d1⟩, .stream ⟨j, d2⟩])
    (hoTS : 0 < oTS) (hl : l ≤ maxTocSize) (hlu : lu ≤ maxTocSize)
    (hd1 : l ≤ d1.length) (hd2 : lTS ≤ d2.length) :
    zstdAfterLocation zD hM source cs tcs o l lu ManifestTypeCRFS oTS lTS luTS t =
      (match decodeAndValidateBlob zD hM (d1.take l) lu cs with
       | .error e => .error e
       | .ok m =>
         match decodeAndValidateBlob zD hM (d2.take lTS) luTS tcs with
         | .error e => .error e
         | .ok ts => .ok (m, ts, i64ofNat o),
       ⟨t.fetchCalls ++ [zstdChunks o l oTS lTS], t.opened ++ [i, j], t.closed ++ [i, j]⟩) := by
  unfold zstdAfterLocation getBlobAt zstdBody
  rw [if_neg (by simp), if_neg (by omega), if_neg (by omega)]
  simp only [hsrc, streamIds]
  simp only [readBlob]
  rw [if_pos hd1]
  cases hdec1 : decodeAndValidateBlob zD hM (d1.take l) lu cs with
  | error e =>
    simp only [hdec1]
    simp [ensureAllBlobsDone, applyDeferErr, Trace.close, Trace.recordFetch, Trace.recordOpen]
  | ok m =>
    simp only [hdec1]
    rw [if_pos hoTS]
    rw [if_pos hd2]
    cases hdec2 : decodeAndValidateBlob zD hM (d2.take lTS) luTS tcs with
    | error e =>
      simp only [hdec2]
      simp [ensureAllBlobsDone, applyDeferErr, Trace.close, Trace.recordFetch, Trace.recordOpen]
    | ok ts =>
      simp only [hdec2]
      simp [ensureAllBlobsDone, applyDeferErr, Trace.close, Trace.recordFetch, Trace.recordOpen]

/-! Claim theorems. -/

/-- C1 (counterexample): `decodeAndValidateBlob` can succeed and return
decompressed bytes whose digest differs from the expected digest. The
expected digest here is the model digest of the raw compressed input
`[1]` (hex `01…`); the returned decompressed bytes are `[2]`, whose
digest is `02…` and does not match — yet the call returns them, because
the code hashes the compressed input before decompressing, never the
decompressed output. -/
theorem C1_counterexample :
    decodeAndValidateBlob zstdConst2 modelHash [1] 5 expHash1 = .ok [2] ∧
    bytesToHex (modelHash "sha256" [2]) ≠
      "0100000000000000000000000000000000000000000000000000000000000000" ∧
    expHash1 =
      "sha256:0100000000000000000000000000000000000000000000000000000000000000" ∧
    bytesToHex (modelHash "sha256" [1]) =
      "0100000000000000000000000000000000000000000000000000000000000000" :=
  ⟨rfl, by decide, rfl, by decide⟩

/-- C1 (amended): for the native path, `decodeAndValidateBlob` returns the
decompressed bytes exactly when the expected digest string parses, the
digest computed over the raw fetched (compressed) bytes equals the
expected digest, and zstd decoding succeeds; any digest-string parse
failure, checksum mismatch over the compressed bytes, or decompression
failure is an error. -/
theorem C1_amended (zD : ZstdModel) (hM : HashModel) (blob : Bytes)
    (lengthUncompressed : Nat) (cs : String) (bytes : Bytes) :
    decodeAndValidateBlob zD hM blob lengthUncompressed cs = .ok bytes ↔
      ∃ d : String × String, digestParse cs = some d ∧
        bytesToHex (hM d.1 blob) = d.2 ∧ zD blob = .ok bytes := by
  rcases hp : digestParse cs with - | d
  · simp [decodeAndValidateBlob, hp]
  · by_cases hc : bytesToHex (hM d.1 blob) = d.2
    · simp [decodeAndValidateBlob, hp, hc]
    · simp [decodeAndValidateBlob, hp, hc]

/-- C2 (code bug, evaluated at the failing input): a successful
annotation-free (footer path) run of `readZstdChunkedManifest` obtains
two streams from the source (footer stream 0 and manifest stream 1) but
closes only the manifest stream: the footer stream is read via the
direct `GetBlobAt` select and never closed. -/
theorem C2_footer_stream_leak :
    (readZstdChunkedManifest zstdConst9 modelHash srcC2 1000 annC2).1 = .ok ([9], [], 100) ∧
    (readZstdChunkedManifest zstdConst9 modelHash srcC2 1000 annC2).2.opened = [0, 1] ∧
    (readZstdChunkedManifest zstdConst9 modelHash srcC2 1000 annC2).2.closed = [1] ∧
    (0 : Nat) ∉ (readZstdChunkedManifest zstdConst9 modelHash srcC2 1000 annC2).2.closed :=
  ⟨rfl, rfl, rfl, by decide⟩

/-- C3 (counterexample): in the gzip-family reader, a ToC whose first tar
entry declares a size above the 50 MiB ceiling does NOT fail with a
manifest-too-big error before decompression and before a fetch beyond
the footer: the run issues the second (ToC) fetch, runs the
gzip+tar pipeline, and — because the loop error is dropped — fails with
"manifest not found" instead. -/
theorem C3_counterexample :
    (readEstargzChunkedManifest gzBig modelHash srcC3 1000 annNone).1 =
      .error "manifest not found" ∧
    (readEstargzChunkedManifest gzBig modelHash srcC3 1000 annNone).2.fetchCalls =
      [[⟨949, 51⟩], [⟨300, 649⟩]] ∧
    gzBig [0] = .ok ⟨(maxTocSize : Int) + 1, []⟩ :=
  ⟨rfl, rfl, rfl⟩

/-- C3 (amended): for the native format (annotation or footer path, with
the recognized manifest type), a declared compressed or uncompressed
length above 50 MiB fails with "manifest too big" before any fetch
beyond the footer. For the gzip-family format the derived compressed
size (computed in wrapping int64 arithmetic, as in Go) above 50 MiB
fails with "manifest too big" before the ToC fetch, but the inner tar
entry size is checked only after the ToC fetch and decompression, and
its violation surfaces as "manifest not found". -/
theorem C3_amended :
    (∀ (zD : ZstdModel) (hM : HashModel) (source : Source) (blobSize : Int) (ann : Ann)
       (o l lu : Nat),
       56 < blobSize → lookupAnn ann ManifestChecksumKey ≠ "" →
       sscanf4 (lookupAnn ann ManifestInfoKey) = some (o, l, lu, ManifestTypeCRFS) →
       ann TarSplitInfoKey = none →
       (maxTocSize < l ∨ maxTocSize < lu) →
       readZstdChunkedManifest zD hM source blobSize ann =
         (.error "manifest too big", Trace.empty)) ∧
    (∀ (zD : ZstdModel) (hM : HashModel) (source : Source) (blobSize : Int) (ann : Ann)
       (i : Nat) (f : Bytes) (rest : List StreamOrErr),
       56 < blobSize → lookupAnn ann ManifestChecksumKey ≠ "" →
       lookupAnn ann ManifestInfoKey = "" →
       source [⟨u64ofInt (blobSize - 56), 56⟩] = .outcomes (.stream ⟨i, f⟩ :: rest) →
       f.length = 56 → f.drop 48 = ZstdChunkedFrameMagic →
       leU64 (f.drop 24) = ManifestTypeCRFS →
       (maxTocSize < leU64 (f.drop 8) ∨ maxTocSize < leU64 (f.drop 16)) →
       (readZstdChunkedManifest zD hM source blobSize ann).1 = .error "manifest too big" ∧
       (readZstdChunkedManifest zD hM source blobSize ann).2.fetchCalls =
         [[⟨u64ofInt (blobSize - 56), 56⟩]]) ∧
    (∀ (gz : GzipTarModel) (hM : HashModel) (source : Source) (blobSize : Int) (ann : Ann)
       (i : Nat) (f : Bytes) (toc : Int),
       51 < blobSize →
       source [⟨u64ofInt (blobSize - 51), 51⟩] = .outcomes [.stream ⟨i, f⟩] →
       f.length = 51 → parseHexInt64 ((f.drop 16).take 16) = some toc →
       (maxTocSize : Int) < i64wrap (blobSize - 51 - toc) →
       readEstargzChunkedManifest gz hM source blobSize ann =
         (.error "manifest too big", ⟨[[⟨u64ofInt (blobSize - 51), 51⟩]], [i], [i]⟩)) ∧
    (∀ (gz : GzipTarModel) (hM : HashModel) (source : Source) (blobSize : Int) (ann : Ann)
       (i j : Nat) (f d : Bytes) (toc : Int) (entry : TarEntry),
       51 < blobSize →
       source [⟨u64ofInt (blobSize - 51), 51⟩] = .outcomes [.stream ⟨i, f⟩] →
       f.length = 51 → parseHexInt64 ((f.drop 16).take 16) = some toc →
       ¬ (maxTocSize : Int) < i64wrap (blobSize - 51 - toc) →
       source [⟨u64ofInt toc, u64ofInt (i64wrap (blobSize - 51 - toc))⟩] =
         .outcomes [.stream ⟨j, d⟩] →
       gz d = .ok entry → (maxTocSize : Int) < entry.size →
       (readEstargzChunkedManifest gz hM source blobSize ann).1 =
         .error "manifest not found" ∧
       (readEstargzChunkedManifest gz hM source blobSize ann).2.fetchCalls.length = 2) := by
  refine ⟨?_, ?_, ?_, ?_⟩
  · intro zD hM source blobSize ann o l lu hb hcs hp hts hbig
    rw [readZstd_ann_reduce_nots zD hM source blobSize ann o l lu ManifestTypeCRFS hb hcs hp hts]
    exact zstdAfterLocation_too_big zD hM source _ "" o l lu 0 0 0 Trace.empty hbig
  · intro zD hM source blobSize ann i f rest hb hcs hinfo hsrc hlen hm hmt hbig
    rw [readZstd_footer_reduce zD hM source blobSize ann i f rest hb hcs hinfo hsrc hlen,
      if_pos hm, hmt,
      zstdAfterLocation_too_big zD hM source _ "" (leU64 f) (leU64 (f.drop 8))
        (leU64 (f.drop 16)) 0 0 0 _ hbig]
    exact ⟨rfl, rfl⟩
  · intro gz hM source blobSize ann i f toc hb hsrc hlen htoc hbig
    exact readEstargz_too_big gz hM source blobSize ann i f toc hb hsrc hlen htoc hbig
  · intro gz hM source blobSize ann i j f d toc entry hb hsrc hlen htoc hsmall hsrc2 hgz hbig
    rw [readEstargz_entry_too_big gz hM source blobSize ann i j f d toc entry hb hsrc hlen htoc
      hsmall hsrc2 hgz hbig]
    exact ⟨rfl, rfl⟩

/-- C3 (witness): a native annotation declaring a compressed length of
50 MiB + 1 byte fails with "manifest too big" with no fetch at all. -/
theorem C3_witness :
    readZstdChunkedManifest zstdConst9 modelHash srcNone 1000 annC3 =
      (.error "manifest too big", Trace.empty) :=
  C3_amended.1 zstdConst9 modelHash srcNone 1000 annC3 100 52428801 1 (by decide) (by decide)
    (by decide) (by decide) (Or.inl (by decide))

/-- C7: a blob whose total size does not exceed the fixed footer size
(51 bytes for the gzip-family format, 56 bytes for the native format)
fails with "blob too small" and issues no fetch. -/
theorem C7_blob_too_small (gz : GzipTarModel) (zD : ZstdModel) (hM : HashModel)
    (source : Source) (ann : Ann) (blobSizeE blobSizeZ : Int)
    (he : blobSizeE ≤ 51) (hz : blobSizeZ ≤ 56) :
    readEstargzChunkedManifest gz hM source blobSizeE ann =
      (.error "blob too small", Trace.empty) ∧
    readZstdChunkedManifest zD hM source blobSizeZ ann =
      (.error "blob too small", Trace.empty) := by
  constructor
  · simp only [readEstargzChunkedManifest]
    rw [if_pos he]
  · simp only [readZstdChunkedManifest, footerSizeCast]
    rw [if_pos hz]

/-- C7 (witness): both readers reject a 40-byte blob with "blob too
small" and an empty trace. -/
theorem C7_witness :
    readEstargzChunkedManifest gzBig modelHash srcNone 40 annNone =
      (.error "blob too small", Trace.empty) ∧
    readZstdChunkedManifest zstdConst9 modelHash srcNone 40 annNone =
      (.error "blob too small", Trace.empty) :=
  C7_blob_too_small gzBig zstdConst9 modelHash srcNone annNone 40 40 (by decide) (by decide)

/-- C8: a footer whose parsed hex ToC offset (60) is at least
`blobSize - 51` (49) yields the non-positive derived size
`100 - 51 - 60 = -11`; the manifest-too-big check does not reject it and
the reader issues a second fetch whose length is that value converted to
uint64 (2^64 - 11). -/
theorem C8_nonpositive_size_fetch :
    (readEstargzChunkedManifest gzBig modelHash srcC8 100 annNone).2.fetchCalls =
      [[⟨49, 51⟩], [⟨60, 18446744073709551605⟩]] ∧
    u64ofInt (100 - 51 - 60) = 18446744073709551605 :=
  ⟨rfl, by decide⟩

/-- C9: when the manifest-checksum annotation is absent or empty,
`readZstdChunkedManifest` issues no fetch and never succeeds; when the
blob is large enough to pass the footer-size check, the error is
exactly the checksum-annotation-not-found error, so an annotation-free
invocation (footer-based discovery) can never succeed. -/
theorem C9_checksum_ann_required (zD : ZstdModel) (hM : HashModel) (source : Source)
    (blobSize : Int) (ann : Ann) (h : lookupAnn ann ManifestChecksumKey = "") :
    (readZstdChunkedManifest zD hM source blobSize ann).2.fetchCalls = [] ∧
    (∀ r : Bytes × Bytes × Int, (readZstdChunkedManifest zD hM source blobSize ann).1 ≠ .ok r) ∧
    (56 < blobSize →
      readZstdChunkedManifest zD hM source blobSize ann =
        (.error ("manifest checksum annotation \"" ++ ManifestChecksumKey ++ "\" not found"),
          Trace.empty)) := by
  simp only [readZstdChunkedManifest, footerSizeCast]
  by_cases hb : blobSize ≤ (56 : Int)
  · rw [if_pos hb]
    exact ⟨rfl, fun r => by simp, fun h56 => absurd hb (by omega)⟩
  · rw [if_neg hb, if_pos h]
    exact ⟨rfl, fun r => by simp, fun _ => rfl⟩

/-- C9 (witness): with no annotations at all and a 1000-byte blob the
native read fails with the checksum-annotation-not-found error before
any fetch. -/
theorem C9_witness :
    readZstdChunkedManifest zstdConst9 modelHash srcNone 1000 annNone =
      (.error ("manifest checksum annotation \"" ++ ManifestChecksumKey ++ "\" not found"),
        Trace.empty) :=
  (C9_checksum_ann_required zstdConst9 modelHash srcNone 1000 annNone (by decide)).2.2
    (by decide)

/-- C10: the declared uncompressed length of `decodeAndValidateBlob` is
used only as the initial capacity of the output buffer: the result is
the same for any two declared lengths, and a call can succeed returning
a byte count different from the declared length (here 3 bytes against a
declared 5). -/
theorem C10_length_unchecked :
    (∀ (zD : ZstdModel) (hM : HashModel) (blob : Bytes) (lu lu' : Nat) (cs : String),
      decodeAndValidateBlob zD hM blob lu cs = decodeAndValidateBlob zD hM blob lu' cs) ∧
    decodeAndValidateBlob zstdConst333 modelHash [1] 5 expHash1 = .ok [3, 3, 3] ∧
    ([3, 3, 3] : Bytes).length ≠ 5 :=
  ⟨fun _ _ _ _ _ _ => rfl, rfl, by decide⟩

lemma leU64_take8 (bs : Bytes) : leU64 (bs.take 8) = leU64 bs := by
  unfold leU64
  rw [List.take_take]
  norm_num

/-- C4: for every run in which the metadata annotation is present, the
only batched fetch the run can issue is the one derived from the
annotations (so the physical footer range is never requested for footer
parsing), the result depends on the source only through its reply to
that derived request (independence from the footer bytes), and a
successful run returns the annotation's offset field. -/
theorem C4_ann_authoritative (zD : ZstdModel) (hM : HashModel) (source : Source)
    (blobSize : Int) (ann : Ann) (h : lookupAnn ann ManifestInfoKey ≠ "") :
    (∀ c ∈ (readZstdChunkedManifest zD hM source blobSize ann).2.fetchCalls,
      c = annDerivedChunks ann) ∧
    (∀ source' : Source, source' (annDerivedChunks ann) = source (annDerivedChunks ann) →
      readZstdChunkedManifest zD hM source' blobSize ann =
        readZstdChunkedManifest zD hM source blobSize ann) ∧
    (∀ (o l lu mt : Nat) (r : Bytes × Bytes × Int),
      sscanf4 (lookupAnn ann ManifestInfoKey) = some (o, l, lu, mt) →
      (readZstdChunkedManifest zD hM source blobSize ann).1 = .ok r →
      r.2.2 = i64ofNat o) := by
  by_cases hb : blobSize ≤ (56 : Int)
  · have he : ∀ src : Source, readZstdChunkedManifest zD hM src blobSize ann =
        (.error "blob too small", Trace.empty) := by
      intro src
      simp only [readZstdChunkedManifest, footerSizeCast]
      rw [if_pos hb]
    refine ⟨?_, ?_, ?_⟩
    · rw [he source]; intro c hc; exact absurd hc (by simp [Trace.empty])
    · intro source' _; rw [he source, he source']
    · intro o l lu mt r _ hok; rw [he source] at hok; exact absurd hok (by simp)
  · have hb' : 56 < blobSize := by omega
    by_cases hcs : lookupAnn ann ManifestChecksumKey = ""
    · have he : ∀ src : Source, readZstdChunkedManifest zD hM src blobSize ann =
          (.error ("manifest checksum annotation \"" ++ ManifestChecksumKey ++ "\" not found"),
            Trace.empty) := by
        intro src
        simp only [readZstdChunkedManifest, footerSizeCast]
        rw [if_neg hb, if_pos hcs]
      refine ⟨?_, ?_, ?_⟩
      · rw [he source]; intro c hc; exact absurd hc (by simp [Trace.empty])
      · intro source' _; rw [he source, he source']
      · intro o l lu mt r _ hok; rw [he source] at hok; exact absurd hok (by simp)
    · cases hp : sscanf4 (lookupAnn ann ManifestInfoKey) with
      | none =>
        have he : ∀ src : Source, readZstdChunkedManifest zD hM src blobSize ann =
            (.error "input does not match format", Trace.empty) := by
          intro src
          simp only [readZstdChunkedManifest, footerSizeCast]
          rw [if_neg hb, if_neg hcs, if_pos h]
          simp [hp]
        refine ⟨?_, ?_, ?_⟩
        · rw [he source]; intro c hc; exact absurd hc (by simp [Trace.empty])
        · intro source' _; rw [he source, he source']
        · intro o l lu mt r hp' _; exact absurd hp' (by simp)
      | some q =>
        obtain ⟨o, l, lu, mt⟩ := q
        cases hts : ann TarSplitInfoKey with
        | none =>
          have hch : annDerivedChunks ann = zstdChunks o l 0 0 := by
            simp [annDerivedChunks, hp, hts]
          have he : ∀ src : Source, readZstdChunkedManifest zD hM src blobSize ann =
              zstdAfterLocation zD hM src (lookupAnn ann ManifestChecksumKey) ""
                o l lu mt 0 0 0 Trace.empty :=
            fun src => readZstd_ann_reduce_nots zD hM src blobSize ann o l lu mt hb' hcs hp hts
          refine ⟨?_, ?_, ?_⟩
          · rw [he source]; intro c hc
            rcases zstdAfterLocation_fetchCalls zD hM source
              (lookupAnn ann ManifestChecksumKey) "" o l lu mt 0 0 0 Trace.empty with h1 | h1 <;>
              rw [h1] at hc
            · exact absurd hc (by simp [Trace.empty])
            · rw [hch]
              simpa [Trace.empty] using hc
          · intro source' hs
            rw [he source, he source']
            exact zstdAfterLocation_source_congr zD hM source source'
              (lookupAnn ann ManifestChecksumKey) "" o l lu mt 0 0 0 Trace.empty
              (by rw [← hch]; exact hs)
          · intro o' l' lu' mt' r hp' hok
            have hq : o = o' ∧ l = l' ∧ lu = lu' ∧ mt = mt' := by simpa using hp'
            obtain ⟨rfl, rfl, rfl, rfl⟩ := hq
            rw [he source] at hok
            exact (zstdAfterLocation_ok zD hM source _ _ o l lu mt 0 0 0 Trace.empty r hok).1
        | some tsStr =>
          cases hts3 : sscanf3 tsStr with
          | none =>
            have he : ∀ src : Source, readZstdChunkedManifest zD hM src blobSize ann =
                (.error "input does not match format", Trace.empty) := by
              intro src
              simp only [readZstdChunkedManifest, footerSizeCast]
              rw [if_neg hb, if_neg hcs, if_pos h]
              simp [hp, hts, hts3]
            refine ⟨?_, ?_, ?_⟩
            · rw [he source]; intro c hc; exact absurd hc (by simp [Trace.empty])
            · intro source' _; rw [he source, he source']
            · intro o' l' lu' mt' r _ hok; rw [he source] at hok; exact absurd hok (by simp)
          | some q3 =>
            obtain ⟨oTS, lTS, luTS⟩ := q3
            have hch : annDerivedChunks ann = zstdChunks o l oTS lTS := by
              simp [annDerivedChunks, hp, hts, hts3]
            have he : ∀ src : Source, readZstdChunkedManifest zD hM src blobSize ann =
                zstdAfterLocation zD hM src (lookupAnn ann ManifestChecksumKey)
                  (lookupAnn ann TarSplitChecksumKey) o l lu mt oTS lTS luTS Trace.empty :=
              fun src => readZstd_ann_reduce_ts zD hM src blobSize ann o l lu mt oTS lTS luTS
                tsStr hb' hcs hp hts hts3
            refine ⟨?_, ?_, ?_⟩
            · rw [he source]; intro c hc
              rcases zstdAfterLocation_fetchCalls zD hM source
                (lookupAnn ann ManifestChecksumKey) (lookupAnn ann TarSplitChecksumKey)
                o l lu mt oTS lTS luTS Trace.empty with h1 | h1 <;> rw [h1] at hc
              · exact absurd hc (by simp [Trace.empty])
              · rw [hch]
                simpa [Trace.empty] using hc
            · intro source' hs
              rw [he source, he source']
              exact zstdAfterLocation_source_congr zD hM source source'
                (lookupAnn ann ManifestChecksumKey) (lookupAnn ann TarSplitChecksumKey)
                o l lu mt oTS lTS luTS Trace.empty (by rw [← hch]; exact hs)
            · intro o' l' lu' mt' r hp' hok
              have hq : o = o' ∧ l = l' ∧ lu = lu' ∧ mt = mt' := by simpa using hp'
              obtain ⟨rfl, rfl, rfl, rfl⟩ := hq
              rw [he source] at hok
              exact (zstdAfterLocation_ok zD hM source _ _ o l lu mt oTS lTS luTS
                Trace.empty r hok).1

/-- C4 (witness): with the metadata annotation present, replacing the
source's reply on the footer range (here by an error outcome) does not
change the result of the read. -/
theorem C4_witness :
    readZstdChunkedManifest zstdTag modelHash srcC4' 1000 annC4 =
      readZstdChunkedManifest zstdTag modelHash srcC4 1000 annC4 :=
  (C4_ann_authoritative zstdTag modelHash srcC4 1000 annC4 (by decide)).2.1 srcC4' (by decide)

lemma readZstd_footer_shape (zD : ZstdModel) (hM : HashModel) (source : Source)
    (blobSize : Int) (ann : Ann) (hinfo : lookupAnn ann ManifestInfoKey = "") :
    (∀ c ∈ (readZstdChunkedManifest zD hM source blobSize ann).2.fetchCalls, c.length = 1) ∧
    (∀ r : Bytes × Bytes × Int,
      (readZstdChunkedManifest zD hM source blobSize ann).1 = .ok r → r.2.1 = []) := by
  simp only [readZstdChunkedManifest, footerSizeCast, getBlobAt]
  by_cases hb : blobSize ≤ (56 : Int)
  · rw [if_pos hb]
    exact ⟨fun c hc => absurd hc (by simp [Trace.empty]), fun r hok => absurd hok (by simp)⟩
  · rw [if_neg hb]
    by_cases hcs : lookupAnn ann ManifestChecksumKey = ""
    · rw [if_pos hcs]
      exact ⟨fun c hc => absurd hc (by simp [Trace.empty]), fun r hok => absurd hok (by simp)⟩
    · rw [if_neg hcs, hinfo, if_neg (by simp)]
      cases hs : source [⟨u64ofInt (blobSize - 56), u64ofInt 56⟩] with
      | initErr e =>
        simp only
        exact ⟨fun c hc => by
            simp only [Trace.recordFetch, Trace.empty] at hc
            simp at hc
            rw [hc]; rfl,
          fun r hok => absurd hok (by simp)⟩
      | outcomes outs =>
        simp only
        match outs with
        | [] =>
          exact ⟨fun c hc => by
              simp only [Trace.recordOpen, Trace.recordFetch, Trace.empty] at hc
              simp at hc
              rw [hc]; rfl,
            fun r hok => absurd hok (by simp)⟩
        | .err e :: rest =>
          exact ⟨fun c hc => by
              simp only [Trace.recordOpen, Trace.recordFetch, Trace.empty] at hc
              simp at hc
              rw [hc]; rfl,
            fun r hok => absurd hok (by simp)⟩
        | .stream s :: rest =>
          simp only [streamIds]
          by_cases hlen : FooterSizeSupported ≤ s.data.length
          · rw [if_pos hlen]
            by_cases hm : isZstdChunkedFrameMagic ((s.data.take FooterSizeSupported).drop 48)
            · rw [if_pos hm]
              constructor
              · intro c hc
                rcases zstdAfterLocation_fetchCalls zD hM source
                    (lookupAnn ann ManifestChecksumKey) ""
                    (leU64 (s.data.take FooterSizeSupported))
                    (leU64 ((s.data.take FooterSizeSupported).drop 8))
                    (leU64 ((s.data.take FooterSizeSupported).drop 16))
                    (leU64 ((s.data.take FooterSizeSupported).drop 24)) 0 0 0
                    ((Trace.empty.recordFetch _).recordOpen _) with h1 | h1 <;> rw [h1] at hc
                · simp only [Trace.recordOpen, Trace.recordFetch, Trace.empty] at hc
                  simp at hc
                  rw [hc]; rfl
                · simp only [Trace.recordOpen, Trace.recordFetch, Trace.empty] at hc
                  simp at hc
                  rcases hc with hc | hc <;> rw [hc] <;> simp [zstdChunks]
              · intro r hok
                exact (zstdAfterLocation_ok zD hM source _ _ _ _ _ _ 0 0 0 _ r hok).2 rfl
            · rw [if_neg hm]
              exact ⟨fun c hc => by
                  simp only [Trace.recordOpen, Trace.recordFetch, Trace.empty] at hc
                  simp at hc
                  rw [hc]; rfl,
                fun r hok => absurd hok (by simp)⟩
          · rw [if_neg hlen]
            by_cases h0 : s.data.length = 0
            · rw [if_pos h0]
              exact ⟨fun c hc => by
                  simp only [Trace.recordOpen, Trace.recordFetch, Trace.empty] at hc
                  simp at hc
                  rw [hc]; rfl,
                fun r hok => absurd hok (by simp)⟩
            · rw [if_neg h0]
              exact ⟨fun c hc => by
                  simp only [Trace.recordOpen, Trace.recordFetch, Trace.empty] at hc
                  simp at hc
                  rw [hc]; rfl,
                fun r hok => absurd hok (by simp)⟩

/-- C5: the companion (tar-split) stream handling. (a) When the tar-split
annotation is absent, or parses with offset zero, every batched call a
run issues requests exactly the single manifest range, and a successful
run returns empty companion bytes. (b) When the tar-split offset is
non-zero, the companion range is requested in the same single batched
call as the manifest range, and on success the companion bytes are
exactly the output of an independent `decodeAndValidateBlob` run on the
companion stream's bytes against the tar-split checksum annotation.
(c) On the footer path (no metadata annotation) every batched call
requests a single range — no companion range exists — and a successful
run returns empty companion bytes. -/
theorem C5_tar_split :
    (∀ (zD : ZstdModel) (hM : HashModel) (source : Source) (blobSize : Int) (ann : Ann)
       (o l lu mt : Nat),
       56 < blobSize → lookupAnn ann ManifestChecksumKey ≠ "" →
       sscanf4 (lookupAnn ann ManifestInfoKey) = some (o, l, lu, mt) →
       (ann TarSplitInfoKey = none ∨
         ∃ ts lTS luTS, ann TarSplitInfoKey = some ts ∧ sscanf3 ts = some (0, lTS, luTS)) →
       (∀ c ∈ (readZstdChunkedManifest zD hM source blobSize ann).2.fetchCalls,
         c = [⟨o, l⟩]) ∧
       (∀ r : Bytes × Bytes × Int,
         (readZstdChunkedManifest zD hM source blobSize ann).1 = .ok r → r.2.1 = [])) ∧
    (∀ (zD : ZstdModel) (hM : HashModel) (source : Source) (blobSize : Int) (ann : Ann)
       (o l lu oTS lTS luTS i j : Nat) (tsStr : String) (d1 d2 : Bytes),
       56 < blobSize → lookupAnn ann ManifestChecksumKey ≠ "" →
       sscanf4 (lookupAnn ann ManifestInfoKey) = some (o, l, lu, ManifestTypeCRFS) →
       ann TarSplitInfoKey = some tsStr → sscanf3 tsStr = some (oTS, lTS, luTS) →
       0 < oTS → l ≤ maxTocSize → lu ≤ maxTocSize →
       source (zstdChunks o l oTS lTS) = .outcomes [.stream ⟨i, d1⟩, .stream ⟨j, d2⟩] →
       l ≤ d1.length → lTS ≤ d2.length →
       (readZstdChunkedManifest zD hM source blobSize ann).2.fetchCalls =
         [[⟨o, l⟩, ⟨oTS, lTS⟩]] ∧
       (∀ r : Bytes × Bytes × Int,
         (readZstdChunkedManifest zD hM source blobSize ann).1 = .ok r →
         decodeAndValidateBlob zD hM (d2.take lTS) luTS (lookupAnn ann TarSplitChecksumKey) =
           .ok r.2.1)) ∧
    (∀ (zD : ZstdModel) (hM : HashModel) (source : Source) (blobSize : Int) (ann : Ann),
       lookupAnn ann ManifestInfoKey = "" →
       (∀ c ∈ (readZstdChunkedManifest zD hM source blobSize ann).2.fetchCalls,
         c.length = 1) ∧
       (∀ r : Bytes × Bytes × Int,
         (readZstdChunkedManifest zD hM source blobSize ann).1 = .ok r → r.2.1 = [])) := by
  refine ⟨?_, ?_, ?_⟩
  · intro zD hM source blobSize ann o l lu mt hb hcs hp habs
    have hz : zstdChunks o l 0 0 = [⟨o, l⟩] := by simp [zstdChunks]
    rcases habs with hts | ⟨ts, lTS, luTS, hts, hts3⟩
    · have he := readZstd_ann_reduce_nots zD hM source blobSize ann o l lu mt hb hcs hp hts
      constructor
      · rw [he]; intro c hc
        rcases zstdAfterLocation_fetchCalls zD hM source
          (lookupAnn ann ManifestChecksumKey) "" o l lu mt 0 0 0 Trace.empty with h1 | h1 <;>
          rw [h1] at hc
        · exact absurd hc (by simp [Trace.empty])
        · rw [← hz]
          simpa [Trace.empty] using hc
      · intro r hok; rw [he] at hok
        exact (zstdAfterLocation_ok zD hM source _ _ o l lu mt 0 0 0 Trace.empty r hok).2 rfl
    · have he := readZstd_ann_reduce_ts zD hM source blobSize ann o l lu mt 0 lTS luTS ts
        hb hcs hp hts hts3
      constructor
      · rw [he]; intro c hc
        rcases zstdAfterLocation_fetchCalls zD hM source
          (lookupAnn ann ManifestChecksumKey) (lookupAnn ann TarSplitChecksumKey)
          o l lu mt 0 lTS luTS Trace.empty with h1 | h1 <;> rw [h1] at hc
        · exact absurd hc (by simp [Trace.empty])
        · have hz' : zstdChunks o l 0 lTS = [⟨o, l⟩] := by simp [zstdChunks]
          rw [← hz']
          simpa [Trace.empty] using hc
      · intro r hok; rw [he] at hok
        exact (zstdAfterLocation_ok zD hM source _ _ o l lu mt 0 lTS luTS
          Trace.empty r hok).2 rfl
  · intro zD hM source blobSize ann o l lu oTS lTS luTS i j tsStr d1 d2
      hb hcs hp hts hts3 hoTS hl hlu hsrc hd1 hd2
    have hzc : zstdChunks o l oTS lTS = [⟨o, l⟩, ⟨oTS, lTS⟩] := by
      unfold zstdChunks; rw [if_pos hoTS]
    have he := readZstd_ann_reduce_ts zD hM source blobSize ann o l lu ManifestTypeCRFS
      oTS lTS luTS tsStr hb hcs hp hts hts3
    have h2s := zstdAfterLocation_two_streams zD hM source
      (lookupAnn ann ManifestChecksumKey) (lookupAnn ann TarSplitChecksumKey)
      o l lu oTS lTS luTS Trace.empty i j d1 d2 hsrc hoTS hl hlu hd1 hd2
    rw [he, h2s]
    constructor
    · simp [Trace.empty, hzc]
    · intro r hok
      simp only at hok
      cases hdec1 : decodeAndValidateBlob zD hM (d1.take l) lu
          (lookupAnn ann ManifestChecksumKey) with
      | error e => rw [hdec1] at hok; exact absurd hok (by simp)
      | ok m =>
        rw [hdec1] at hok
        cases hdec2 : decodeAndValidateBlob zD hM (d2.take lTS) luTS
            (lookupAnn ann TarSplitChecksumKey) with
        | error e => rw [hdec2] at hok; exact absurd hok (by simp)
        | ok ts =>
          rw [hdec2] at hok
          simp only [Except.ok.injEq] at hok
          rw [← hok]
  · intro zD hM source blobSize ann hinfo
    exact readZstd_footer_shape zD hM source blobSize ann hinfo

/-- C5 (witness): with a tar-split annotation `500:3:1`, the run issues
one batched call with both ranges and succeeds with companion bytes
that independently validate against the tar-split checksum annotation;
with no tar-split annotation, the single batched call holds only the
manifest range. -/
theorem C5_witness :
    (readZstdChunkedManifest zstdTag modelHash srcC5 1000 annC5).2.fetchCalls =
      [[⟨100, 2⟩, ⟨500, 3⟩]] ∧
    decodeAndValidateBlob zstdTag modelHash ([8, 8, 8].take 3) 1
      (lookupAnn annC5 TarSplitChecksumKey) =
      .ok (readZstdChunkedManifest zstdTag modelHash srcC5 1000 annC5).1.toOption.get!.2.1 ∧
    (∀ c ∈ (readZstdChunkedManifest zstdTag modelHash srcC4 1000 annC4).2.fetchCalls,
      c = [⟨100, 2⟩]) := by
  have hb := (C5_tar_split.2.1 zstdTag modelHash srcC5 1000 annC5 100 2 1 500 3 1 0 1
    "500:3:1" [1, 5] [8, 8, 8] (by decide) (by decide) (by decide) (by decide) (by decide)
    (by decide) (by decide) (by decide) (by decide) (by decide) (by decide))
  have ha := (C5_tar_split.1 zstdTag modelHash srcC4 1000 annC4 100 2 1 1
    (by decide) (by decide) (by decide) (Or.inl (by decide)))
  refine ⟨hb.1, ?_, ha.1⟩
  have hok : (readZstdChunkedManifest zstdTag modelHash srcC5 1000 annC5).1 =
      .ok ([9, 1], [9, 8], 100) := rfl
  have := hb.2 ([9, 1], [9, 8], 100) hok
  rw [hok]
  exact this

/-- C6: on the footer path, the 56-byte native footer read at
`blobSize - 56` is parsed as little-endian u64 fields offset [0:8),
compressed length [8:16), uncompressed length [16:24), manifest-type
tag [24:32); unless bytes [48:56) equal the reserved magic the read
fails with "invalid magic number" even when all other fields are
well-formed, and when the magic matches the run continues with exactly
those parsed fields. -/
theorem C6_footer_layout (zD : ZstdModel) (hM : HashModel) (source : Source)
    (blobSize : Int) (ann : Ann) (i : Nat) (f : Bytes) (rest : List StreamOrErr)
    (hb : 56 < blobSize) (hcs : lookupAnn ann ManifestChecksumKey ≠ "")
    (hinfo : lookupAnn ann ManifestInfoKey = "")
    (hsrc : source [⟨u64ofInt (blobSize - 56), 56⟩] = .outcomes (.stream ⟨i, f⟩ :: rest))
    (hlen : f.length = 56) :
    ((f.drop 48).take 8 ≠ ZstdChunkedFrameMagic →
      (readZstdChunkedManifest zD hM source blobSize ann).1 = .error "invalid magic number") ∧
    ((f.drop 48).take 8 = ZstdChunkedFrameMagic →
      readZstdChunkedManifest zD hM source blobSize ann =
        zstdAfterLocation zD hM source (lookupAnn ann ManifestChecksumKey) ""
          (leU64 (f.take 8)) (leU64 ((f.drop 8).take 8)) (leU64 ((f.drop 16).take 8))
          (leU64 ((f.drop 24).take 8)) 0 0 0
          ⟨[[⟨u64ofInt (blobSize - 56), 56⟩]], i :: streamIds rest, []⟩) := by
  have hred := readZstd_footer_reduce zD hM source blobSize ann i f rest hb hcs hinfo hsrc hlen
  have htake8 : (f.drop 48).take 8 = f.drop 48 :=
    List.take_of_length_le (by rw [List.length_drop, hlen])
  constructor
  · intro hm
    rw [htake8] at hm
    rw [hred, if_neg hm]
  · intro hm
    rw [htake8] at hm
    rw [hred, if_pos hm, leU64_take8, leU64_take8, leU64_take8, leU64_take8]

/-- C6 (witness): a well-formed footer (offset 100, length 2,
uncompressed length 1, type 1, valid magic) delivered at
`1000 - 56 = 944` drives the run into the common tail with exactly the
little-endian-parsed fields. -/
theorem C6_witness :
    readZstdChunkedManifest zstdConst9 modelHash srcC2 1000 annC2 =
      zstdAfterLocation zstdConst9 modelHash srcC2 (lookupAnn annC2 ManifestChecksumKey) ""
        (leU64 (footerC2.take 8)) (leU64 ((footerC2.drop 8).take 8))
        (leU64 ((footerC2.drop 16).take 8)) (leU64 ((footerC2.drop 24).take 8)) 0 0 0
        ⟨[[⟨u64ofInt (1000 - 56), 56⟩]], 0 :: streamIds [], []⟩ :=
  (C6_footer_layout zstdConst9 modelHash srcC2 1000 annC2 0 footerC2 []
    (by decide) (by decide) (by decide) (by decide) (by decide)).2 (by decide)

end ChunkedStorage
